import Mathlib

/-!
Verification development for the scripted UI verification harness
(three Playwright scripts: jules-scratch/verification/verify_feature.py,
jules-scratch/verification/verify_chat.py, verify_print.py).

Each script is a straight-line sequence of browser operations.  We embed
each script as a computation in a small state/writer/except monad:

* the state is the only piece of the filesystem any script consults,
  namely whether the directory jules-scratch/verification exists
  (verify_feature.py checks and creates exactly that directory;
  verify_chat.py captures into it without checking; verify_print.py
  captures into the current directory);
* the writer component is the ordered trace of browser/filesystem
  operations the script performed (one event per executed primitive);
* the except component models a raised Python exception: once a
  primitive raises, no later statement of the same block runs.

The outcome of each fallible primitive (did the page load, did the
selector resolve in time, did the text become visible, ...) is drawn
from an environment record -- one record per script -- so theorems
quantify over every possible behaviour of the web application and
the browser engine.
-/

/-- Failure modes of the browser primitives, following the error taxonomy
of the spec: launch, navigation, element lookup, wait timeout and
screenshot I/O failures. The constructor missingDir is the screenshot
capture failure caused specifically by the target directory being absent,
kept separate from other capture failures so that theorems can speak
about it. -/
inductive PwError
  | launchError
  | navigationError
  | elementNotFound
  | timeoutError
  | captureError
  | missingDir
  deriving DecidableEq, Repr

/-- Observable operations a script can perform, in the order it performs
them. Each executed Playwright call (and each print and filesystem call)
emits exactly one event, whether it succeeds or raises. -/
inductive Event
  | launch
  | newPage
  | goto (url : String)
  | waitForSelector (sel : String)
  | queryAll (sel : String)
  | print (msg : String)
  | click (sel : String)
  | waitForTimeout (ms : Nat)
  | fill (sel : String) (text : String)
  | press (sel : String) (key : String)
  | expectVisible (text : String)
  | screenshot (path : String)
  | pathCheck (p : String)
  | makedirs (p : String)
  | browserClose
  | stop
  deriving DecidableEq, Repr

/-- State/writer/except monad for script execution. The state Bool
records whether the directory jules-scratch/verification currently
exists; the List Event is the trace of performed operations; the
Except layer is a raised Python exception. -/
structure SM (α : Type) where
  exec : Bool → Except PwError α × List Event × Bool

namespace SM

def pure (a : α) : SM α := ⟨fun fs => (Except.ok a, [], fs)⟩

def bind (x : SM α) (f : α → SM β) : SM β :=
  ⟨fun fs =>
    match x.exec fs with
    | (Except.ok a, tr, fs1) =>
      match (f a).exec fs1 with
      | (r, tr2, fs2) => (r, tr ++ tr2, fs2)
    | (Except.error e, tr, fs1) => (Except.error e, tr, fs1)⟩

instance : Monad SM where
  pure := SM.pure
  bind := SM.bind

end SM

deriving instance DecidableEq for Except

/-- Result component of running a script on an initial filesystem state. -/
def resultOf (m : SM Unit) (fs : Bool) : Except PwError Unit := (m.exec fs).1

/-- Trace component of running a script on an initial filesystem state. -/
def traceOf (m : SM Unit) (fs : Bool) : List Event := (m.exec fs).2.1

/-- Filesystem state after running a script. -/
def fsAfter (m : SM Unit) (fs : Bool) : Bool := (m.exec fs).2.2

/-- Infallible operation: emit the event and succeed (print, close). -/
def emit (e : Event) : SM Unit := ⟨fun fs => (Except.ok (), [e], fs)⟩

/-- Fallible browser operation: emit the event, then succeed or raise
err according to the environment bit ok. -/
def act (e : Event) (ok : Bool) (err : PwError) : SM Unit :=
  ⟨fun fs => ((if ok then Except.ok () else Except.error err), [e], fs)⟩

/-- Embedding of page.wait_for_timeout(ms): a fixed delay that always
succeeds, for every page state and filesystem state. -/
def waitForTimeout (ms : Nat) : SM Unit := emit (Event.waitForTimeout ms)

/-- Embedding of os.path.exists on jules-scratch/verification: reads the
state bit, never raises. -/
def pathExistsDir : SM Bool :=
  ⟨fun fs => (Except.ok fs, [Event.pathCheck "jules-scratch/verification"], fs)⟩

/-- Embedding of os.makedirs on jules-scratch/verification: sets the
state bit. -/
def makedirsDir : SM Unit :=
  ⟨fun _fs => (Except.ok (), [Event.makedirs "jules-scratch/verification"], true)⟩

/-- Embedding of page.screenshot with a path inside
jules-scratch/verification: raises missingDir when that directory does
not exist, otherwise succeeds or raises captureError according to the
device bit devOk. -/
def screenshotInDir (path : String) (devOk : Bool) : SM Unit :=
  ⟨fun fs =>
    ((if fs then (if devOk then Except.ok () else Except.error PwError.captureError)
      else Except.error PwError.missingDir),
     [Event.screenshot path], fs)⟩

/-- Embedding of page.screenshot with a path in the current directory
(no directory precondition). -/
def screenshotHere (path : String) (devOk : Bool) : SM Unit :=
  act (Event.screenshot path) devOk PwError.captureError

/-- Embedding of the context manager with sync_playwright() / with
async_playwright(): on every exit path of the body, normal or raising,
the playwright driver is stopped, which releases the launched browser;
a raised exception is then re-raised to the caller. -/
def withPlaywright (body : SM Unit) : SM Unit :=
  ⟨fun fs =>
    match body.exec fs with
    | (r, tr, fs1) => (r, tr ++ [Event.stop], fs1)⟩

/-- Embedding of the broad try/except wrapper of verify_feature.py: any
exception raised by the body is caught and printed via fmt; the wrapper
itself always returns normally. -/
def tryCatchPrint (body : SM Unit) (fmt : PwError → String) : SM Unit :=
  ⟨fun fs =>
    match body.exec fs with
    | (Except.ok _, tr, fs1) => (Except.ok (), tr, fs1)
    | (Except.error e, tr, fs1) => (Except.ok (), tr ++ [Event.print (fmt e)], fs1)⟩

/-- Rendering of a raised error inside the f-string of the except clause
of verify_feature.py (the Python exception message text is abstracted to
one fixed string per error kind). -/
def errMsg : PwError → String
  | PwError.launchError => "BrowserType.launch failed"
  | PwError.navigationError => "Page.goto failed"
  | PwError.elementNotFound => "element not found"
  | PwError.timeoutError => "Timeout exceeded"
  | PwError.captureError => "screenshot failed"
  | PwError.missingDir => "no such file or directory"

/-- Environment for verify_chat.py: outcome of each fallible primitive
the script performs, plus rendered, the page content state after
navigation. The script itself never reads rendered: it waits on a fixed
delay, not on a DOM condition -- theorems about render-independence
quantify over this field. -/
structure ChatEnv where
  launchOk : Bool
  newPageOk : Bool
  gotoOk : Bool
  rendered : Bool
  screenshotOk : Bool
  deriving DecidableEq, Repr

namespace VerifyChat

/-- Body of the with-block of run in verify_chat.py: launch, new_page,
goto the chat page, wait_for_timeout(5000), screenshot into
jules-scratch/verification, browser.close(). -/
def body (env : ChatEnv) : SM Unit := do
  act Event.launch env.launchOk PwError.launchError
  act Event.newPage env.newPageOk PwError.launchError
  act (Event.goto "http://localhost:8080/trip/1/chat") env.gotoOk PwError.navigationError
  waitForTimeout 5000
  screenshotInDir "jules-scratch/verification/verification.png" env.screenshotOk
  emit Event.browserClose

/-- Embedding of run in verify_chat.py: the body inside the
sync_playwright context manager. -/
def run (env : ChatEnv) : SM Unit := withPlaywright (body env)

end VerifyChat

/-- Environment for verify_print.py. recapFound is whether
query_selector_all finds at least one button whose text contains Recap
(the script branches only on emptiness of that list and clicks its
first element). -/
structure PrintEnv where
  launchOk : Bool
  newPageOk : Bool
  gotoOk : Bool
  h3Ok : Bool
  recapFound : Bool
  clickOk : Bool
  modalOk : Bool
  screenshotOk : Bool
  deriving DecidableEq, Repr

namespace VerifyPrint

/-- Body of the with-block of run in verify_print.py: goto home, wait
for trip cards (h3), query the Recap buttons, early return with a
message when none is found, otherwise click the first, wait for the
modal heading, screenshot to the current directory, browser.close(). -/
def body (env : PrintEnv) : SM Unit := do
  act Event.launch env.launchOk PwError.launchError
  act Event.newPage env.newPageOk PwError.launchError
  act (Event.goto "http://localhost:8080/") env.gotoOk PwError.navigationError
  act (Event.waitForSelector "h3") env.h3Ok PwError.timeoutError
  emit (Event.queryAll "button:has-text(\"Recap\")")
  if env.recapFound then do
    act (Event.click "button:has-text(\"Recap\")") env.clickOk PwError.elementNotFound
    act (Event.waitForSelector "h2:has-text(\"Create Trip Recap\")") env.modalOk
      PwError.timeoutError
    screenshotHere "verification_print_modal.png" env.screenshotOk
    emit Event.browserClose
  else
    emit (Event.print "Recap button not found")

/-- Embedding of run in verify_print.py: the body inside the
async_playwright context manager (the early return exits the with-block,
which still stops the driver). -/
def run (env : PrintEnv) : SM Unit := withPlaywright (body env)

end VerifyPrint

/-- Environment for verify_feature.py (the page is passed in by the
caller, so there is no launch step in this script). -/
structure PlacesEnv where
  gotoOk : Bool
  fillOk : Bool
  pressOk : Bool
  expectOk : Bool
  screenshotOk : Bool
  deriving DecidableEq, Repr

namespace VerifyFeature

/-- Body of the try-block of verify_places_search in verify_feature.py:
goto the places page, fill the search input, press Enter, expect the
SoFi Stadium text to be visible, ensure the output directory exists,
screenshot into it. -/
def body (env : PlacesEnv) : SM Unit := do
  emit (Event.print "Starting verification script...")
  act (Event.goto "http://localhost:5173/places") env.gotoOk PwError.navigationError
  emit (Event.print "Navigated to places page.")
  act (Event.fill "Search places on map..." "SoFi Stadium") env.fillOk PwError.elementNotFound
  act (Event.press "Search places on map..." "Enter") env.pressOk PwError.elementNotFound
  emit (Event.print "Searched for SoFi Stadium.")
  act (Event.expectVisible "SoFi Stadium") env.expectOk PwError.timeoutError
  emit (Event.print "Place info overlay is visible.")
  let ex ← pathExistsDir
  if ex then SM.pure () else makedirsDir
  screenshotInDir "jules-scratch/verification/verification.png" env.screenshotOk
  emit (Event.print "Screenshot taken.")

/-- Embedding of verify_places_search in verify_feature.py: the body
wrapped in the broad except clause that prints any raised error. -/
def verify_places_search (env : PlacesEnv) : SM Unit :=
  tryCatchPrint (body env) (fun e => "An error occurred: " ++ errMsg e)

end VerifyFeature

/-- Process exit code of a script invoked as __main__: a normal return
exits 0, an uncaught exception makes the interpreter exit 1. No exit
path of any of the scripts calls sys.exit, so no other code occurs. -/
def exitCode (r : Except PwError Unit) : Nat :=
  match r with
  | Except.ok _ => 0
  | Except.error _ => 1

/-- Does a trace contain a screenshot operation (at any path)? -/
def hasScreenshot (tr : List Event) : Bool :=
  tr.any fun e => match e with | Event.screenshot _ => true | _ => false

/-- Does a trace contain a click operation (on any selector)? -/
def hasClick (tr : List Event) : Bool :=
  tr.any fun e => match e with | Event.click _ => true | _ => false

/-- Outcome of a bounded wait. -/
inductive WaitOutcome
  | success
  | timedOut
  deriving DecidableEq, Repr

/-- Modelled from the spec: the ConditionWaiter component of section 4.2 is
not implemented under src/ -- the scripts delegate all waiting to the
browser engine's built-in waits -- so its polling loop is modelled from
the spec's words. pollLoop evaluates the time-indexed probe once per
tick, resolving success at the first true probe and timed out when the
fuel (the number of polls the timeout budget allows) runs out; it
returns the outcome together with the number of probe evaluations
performed. -/
def pollLoop (probe : Nat → Bool) : Nat → Nat → WaitOutcome × Nat
  | 0, _ => (WaitOutcome.timedOut, 0)
  | fuel + 1, tick =>
    if probe tick then (WaitOutcome.success, 1)
    else
      let r := pollLoop probe fuel (tick + 1)
      (r.1, r.2 + 1)

/-- Modelled from the spec: waitFor(condition, timeoutMs) of section 4.2
polls the probe at a fixed interval until the probe holds or the elapsed
time exceeds the timeout; when timeoutMs is nonpositive it performs
exactly one probe and resolves immediately on its result. Returns the
outcome and the number of probe evaluations. -/
def waitFor (probe : Nat → Bool) (timeoutMs : Int) (intervalMs : Nat) : WaitOutcome × Nat :=
  if timeoutMs ≤ 0 then
    ((if probe 0 then WaitOutcome.success else WaitOutcome.timedOut), 1)
  else
    pollLoop probe (timeoutMs.toNat / (max intervalMs 1) + 1) 0

/-- Chat environment in which navigation fails. -/
def chatGotoFail : ChatEnv := ⟨true, true, false, true, true⟩

/-- Chat environment in which the browser launch fails (setup failure
before any step ran). -/
def chatLaunchFail : ChatEnv := ⟨false, true, true, true, true⟩

/-- Chat environment in which every operation succeeds but the page
renders nothing. -/
def chatNotRendered : ChatEnv := ⟨true, true, true, false, true⟩

/-- Places environment in which every operation succeeds. -/
def placesAllOk : PlacesEnv := ⟨true, true, true, true, true⟩

/-- Places environment in which the wait for the SoFi Stadium text times
out and every other operation succeeds. -/
def placesExpectFail : PlacesEnv := ⟨true, true, true, false, true⟩

/-- Places environment in which navigation fails. -/
def placesGotoFail : PlacesEnv := ⟨false, true, true, true, true⟩

/-- Print environment in which the page has no Recap button and every
operation succeeds. -/
def printNoRecap : PrintEnv := ⟨true, true, true, true, false, true, true, true⟩

/-- Print environment in which the wait for the trip cards (h3) times
out. -/
def printH3Fail : PrintEnv := ⟨true, true, true, false, true, true, true, true⟩

/-- Declared operation order of verify_print.py, with the early-return
message in the position at which it can occur: every execution trace is
an order-preserving selection of this sequence. -/
def printDeclaredOrder : List Event :=
  [Event.launch, Event.newPage, Event.goto "http://localhost:8080/",
   Event.waitForSelector "h3", Event.queryAll "button:has-text(\"Recap\")",
   Event.print "Recap button not found",
   Event.click "button:has-text(\"Recap\")",
   Event.waitForSelector "h2:has-text(\"Create Trip Recap\")",
   Event.screenshot "verification_print_modal.png", Event.browserClose, Event.stop]

/-!
Helper lemmas shared by the claim theorems.
-/

theorem tryCatchPrint_result (m : SM Unit) (f : PwError → String) (fs : Bool) :
    resultOf (tryCatchPrint m f) fs = Except.ok () := by
  unfold resultOf tryCatchPrint
  dsimp only
  rcases h : m.exec fs with ⟨r, tr, fs1⟩
  cases r <;> simp

theorem tryCatchPrint_trace_err (m : SM Unit) (f : PwError → String) (fs : Bool) (e : PwError)
    (h : resultOf m fs = Except.error e) :
    traceOf (tryCatchPrint m f) fs = traceOf m fs ++ [Event.print (f e)] := by
  unfold resultOf at h
  unfold traceOf tryCatchPrint
  dsimp only
  rcases hx : m.exec fs with ⟨r, tr, fs1⟩
  rw [hx] at h
  simp at h
  subst h
  simp

theorem withPlaywright_trace (m : SM Unit) (fs : Bool) :
    traceOf (withPlaywright m) fs = traceOf m fs ++ [Event.stop] := rfl

theorem trace_ends_stop (m : SM Unit) (fs : Bool) :
    (traceOf (withPlaywright m) fs).getLast? = some Event.stop := by
  rw [withPlaywright_trace]
  simp

theorem hasScreenshot_append_print (tr : List Event) (m : String) :
    hasScreenshot (tr ++ [Event.print m]) = hasScreenshot tr := by
  simp [hasScreenshot]

theorem places_expect_fail_no_screenshot (p : PlacesEnv) (fs : Bool)
    (h : p.expectOk = false) :
    hasScreenshot (traceOf (VerifyFeature.verify_places_search p) fs) = false := by
  obtain ⟨a, b, c1, d, e⟩ := p
  subst h
  cases a <;> cases b <;> cases c1 <;> cases e <;> cases fs <;> decide

theorem print_h3_fail_no_click_shot (p : PrintEnv) (fs : Bool) (h : p.h3Ok = false) :
    hasClick (traceOf (VerifyPrint.run p) fs) = false ∧
    hasScreenshot (traceOf (VerifyPrint.run p) fs) = false := by
  obtain ⟨a, b, c1, d, e, f, g, i⟩ := p
  subst h
  cases a <;> cases b <;> cases c1 <;> cases e <;> cases f <;> cases g <;> cases i <;>
    cases fs <;> decide

theorem pollLoop_probes_le (probe : Nat → Bool) :
    ∀ fuel tick, (pollLoop probe fuel tick).2 ≤ fuel := by
  intro fuel
  induction fuel with
  | zero => intro tick; simp [pollLoop]
  | succ n ih =>
    intro tick
    simp only [pollLoop]
    by_cases h : probe tick
    · simp [h]
    · simp only [h, if_false, Bool.false_eq_true]
      exact Nat.succ_le_succ (ih (tick + 1))

/-!
Claim theorems.
-/

/-- C1: once a step fails, no subsequent step of the same scenario
executes. When the wait for the SoFi Stadium text times out in the
places scenario, the final explicit screenshot step never executes (no
screenshot operation appears in the trace, nor its completion log), for
every outcome of the earlier steps and of the filesystem; likewise in
the recap scenario a failed wait for the trip cards means no click and
no screenshot is ever performed. -/
theorem fail_fast_no_later_step (p : PlacesEnv) (q : PrintEnv) (fs fs2 : Bool)
    (h : p.expectOk = false) :
    hasScreenshot (traceOf (VerifyFeature.verify_places_search p) fs) = false ∧
    Event.print "Screenshot taken." ∉ traceOf (VerifyFeature.verify_places_search p) fs ∧
    (q.h3Ok = false →
      hasClick (traceOf (VerifyPrint.run q) fs2) = false ∧
      hasScreenshot (traceOf (VerifyPrint.run q) fs2) = false) := by
  refine ⟨places_expect_fail_no_screenshot p fs h, ?_,
    fun h2 => print_h3_fail_no_click_shot q fs2 h2⟩
  obtain ⟨a, b, c1, d, e⟩ := p
  subst h
  cases a <;> cases b <;> cases c1 <;> cases e <;> cases fs <;> decide

/-- Witness for C1 at a concrete environment: the wait times out while
everything else succeeds, and no screenshot appears in the trace. -/
theorem fail_fast_no_later_step_witness :
    placesExpectFail.expectOk = false ∧
    hasScreenshot (traceOf (VerifyFeature.verify_places_search placesExpectFail) true) = false :=
  ⟨by decide, (fail_fast_no_later_step placesExpectFail printH3Fail true true (by decide)).1⟩

/-- C2 counterexample: the chat script with a failing navigation
terminates by propagating the navigation error to its caller as a raw
unhandled fault, so not every scenario execution recovers its errors at
the runner boundary. -/
theorem chat_raw_fault_counterexample :
    resultOf (VerifyChat.run chatGotoFail) true = Except.error PwError.navigationError := by
  decide

/-- C2 amended: only the places script recovers every error at its
boundary: verify_places_search always returns normally, and converts any
error raised in its body into a printed message (its structured result);
the chat and recap scripts propagate raised errors to the caller. -/
theorem places_recovers_all_errors (p : PlacesEnv) (fs : Bool) :
    resultOf (VerifyFeature.verify_places_search p) fs = Except.ok () ∧
    (∀ e, resultOf (VerifyFeature.body p) fs = Except.error e →
      traceOf (VerifyFeature.verify_places_search p) fs =
        traceOf (VerifyFeature.body p) fs ++
          [Event.print ("An error occurred: " ++ errMsg e)]) :=
  ⟨tryCatchPrint_result _ _ _, fun e he => tryCatchPrint_trace_err _ _ _ e he⟩

/-- Witness for C2 amended at a concrete environment: a failing
navigation in the places script is recovered and printed. -/
theorem places_recovers_all_errors_witness :
    resultOf (VerifyFeature.verify_places_search placesGotoFail) true = Except.ok () ∧
    resultOf (VerifyFeature.body placesGotoFail) true =
      Except.error PwError.navigationError ∧
    traceOf (VerifyFeature.verify_places_search placesGotoFail) true =
      traceOf (VerifyFeature.body placesGotoFail) true ++
        [Event.print ("An error occurred: " ++ errMsg PwError.navigationError)] :=
  ⟨(places_recovers_all_errors placesGotoFail true).1, by decide,
   (places_recovers_all_errors placesGotoFail true).2 PwError.navigationError (by decide)⟩

/-- C3 counterexample: with every step up to the wait succeeding and the
wait timing out, the places script records the failure yet attempts no
screenshot at all before returning: no best-effort diagnostic capture of
the last page state exists in the code. -/
theorem diagnostic_screenshot_counterexample :
    resultOf (VerifyFeature.body placesExpectFail) true = Except.error PwError.timeoutError ∧
    hasScreenshot (traceOf (VerifyFeature.verify_places_search placesExpectFail) true)
      = false := by
  decide

/-- C3 amended: when a step of the places script fails, the error is
caught at the script boundary and only logged: the handler appends a
single print and attempts no screenshot beyond those of the scenario
body itself; in particular when the wait times out no screenshot is
attempted at all. -/
theorem failure_logged_no_diagnostic_capture (p : PlacesEnv) (fs : Bool) (e : PwError)
    (h : resultOf (VerifyFeature.body p) fs = Except.error e) :
    resultOf (VerifyFeature.verify_places_search p) fs = Except.ok () ∧
    hasScreenshot (traceOf (VerifyFeature.verify_places_search p) fs) =
      hasScreenshot (traceOf (VerifyFeature.body p) fs) ∧
    (p.expectOk = false →
      hasScreenshot (traceOf (VerifyFeature.verify_places_search p) fs) = false) := by
  refine ⟨tryCatchPrint_result _ _ _, ?_, fun h2 => places_expect_fail_no_screenshot p fs h2⟩
  have ht := tryCatchPrint_trace_err (VerifyFeature.body p)
    (fun e => "An error occurred: " ++ errMsg e) fs e h
  show hasScreenshot
      (traceOf (tryCatchPrint (VerifyFeature.body p)
        (fun e => "An error occurred: " ++ errMsg e)) fs) =
    hasScreenshot (traceOf (VerifyFeature.body p) fs)
  rw [ht, hasScreenshot_append_print]

/-- Witness for C3 amended at a concrete environment: the timed-out wait
is recovered into a printed message and no diagnostic capture happens. -/
theorem failure_logged_no_diagnostic_capture_witness :
    resultOf (VerifyFeature.body placesExpectFail) true = Except.error PwError.timeoutError ∧
    resultOf (VerifyFeature.verify_places_search placesExpectFail) true = Except.ok () :=
  ⟨by decide,
   (failure_logged_no_diagnostic_capture placesExpectFail true PwError.timeoutError
     (by decide)).1⟩

/-- C4: the browser session is released at scenario end on every exit
path: for every environment and filesystem state, the trace of the chat
and of the recap script ends with the playwright teardown that releases
the launched browser, also on the paths where a step failed or an
exception was raised mid-scenario. -/
theorem session_released_every_path (c : ChatEnv) (p : PrintEnv) (fs fs2 : Bool) :
    (traceOf (VerifyChat.run c) fs).getLast? = some Event.stop ∧
    (traceOf (VerifyPrint.run p) fs2).getLast? = some Event.stop :=
  ⟨trace_ends_stop (VerifyChat.body c) fs, trace_ends_stop (VerifyPrint.body p) fs2⟩

/-- C5: a fixed-delay wait always resolves successfully after exactly
its delay, for every page and filesystem state; hence in the chat
scenario, whose only wait is the 5000 ms fixed delay, the run is
independent of what the page rendered, and when launch, page creation,
navigation and capture succeed the trace contains the delay, the
screenshot and the browser close -- with no assumption on the rendered
field. -/
theorem fixed_delay_always_succeeds (c : ChatEnv) (fs : Bool) (r : Bool)
    (h1 : c.launchOk = true) (h2 : c.newPageOk = true) (h3 : c.gotoOk = true)
    (h4 : c.screenshotOk = true) (h5 : fs = true) :
    (∀ ms fsx, (waitForTimeout ms).exec fsx = (Except.ok (), [Event.waitForTimeout ms], fsx)) ∧
    (VerifyChat.run { c with rendered := r }).exec fs = (VerifyChat.run c).exec fs ∧
    Event.waitForTimeout 5000 ∈ traceOf (VerifyChat.run c) fs ∧
    Event.screenshot "jules-scratch/verification/verification.png"
      ∈ traceOf (VerifyChat.run c) fs ∧
    Event.browserClose ∈ traceOf (VerifyChat.run c) fs := by
  obtain ⟨a, b, c1, d, e⟩ := c
  subst h1; subst h2; subst h3; subst h4; subst h5
  refine ⟨fun ms fsx => rfl, ?_, ?_, ?_, ?_⟩ <;> cases d <;> cases r <;> decide

/-- Witness for C5 at a concrete environment in which the page rendered
nothing: the screenshot and the close still execute. -/
theorem fixed_delay_always_succeeds_witness :
    Event.screenshot "jules-scratch/verification/verification.png"
      ∈ traceOf (VerifyChat.run chatNotRendered) true ∧
    Event.browserClose ∈ traceOf (VerifyChat.run chatNotRendered) true :=
  ⟨(fixed_delay_always_succeeds chatNotRendered true true (by decide) (by decide)
      (by decide) (by decide) (by decide)).2.2.2.1,
   (fixed_delay_always_succeeds chatNotRendered true true (by decide) (by decide)
      (by decide) (by decide) (by decide)).2.2.2.2⟩

/-- C6: steps execute strictly in declared order: every trace of the
recap script, on every environment and filesystem state, is an
order-preserving selection (sublist) of the declared operation sequence
and performs no operation twice -- no reordering and no parallelism; in
the embedding each operation is sequenced to completion before the next
is issued, sequential composition being the only combinator used. -/
theorem steps_in_declared_order (p : PrintEnv) (fs : Bool) :
    List.Sublist (traceOf (VerifyPrint.run p) fs) printDeclaredOrder ∧
    (traceOf (VerifyPrint.run p) fs).Nodup := by
  obtain ⟨a, b, c1, d, e, f, g, i⟩ := p
  cases a <;> cases b <;> cases c1 <;> cases d <;> cases e <;> cases f <;> cases g <;>
    cases i <;> cases fs <;> decide

/-- C7: the modelled ConditionWaiter performs exactly one probe and
resolves immediately on its result whenever the timeout is nonpositive,
and for every timeout the number of probe evaluations is bounded by the
polling budget, so no call ever retries indefinitely. -/
theorem waiter_one_probe_and_bounded (probe : Nat → Bool) (timeoutMs : Int) (intervalMs : Nat)
    (h : timeoutMs ≤ 0) :
    (waitFor probe timeoutMs intervalMs).2 = 1 ∧
    (waitFor probe timeoutMs intervalMs).1 =
      (if probe 0 then WaitOutcome.success else WaitOutcome.timedOut) ∧
    (∀ t : Int, ∀ i : Nat, (waitFor probe t i).2 ≤ t.toNat / (max i 1) + 1) := by
  refine ⟨?_, ?_, ?_⟩
  · simp [waitFor, h]
  · simp [waitFor, h]
  · intro t i
    by_cases ht : t ≤ 0
    · simp [waitFor, ht]
    · simp only [waitFor, ht, if_false]
      exact pollLoop_probes_le probe _ 0

/-- Witness for C7 at a concrete probe and timeout zero: exactly one
probe is evaluated. -/
theorem waiter_one_probe_and_bounded_witness :
    ((0 : Int) ≤ 0) ∧ (waitFor (fun _ => true) 0 100).2 = 1 :=
  ⟨by decide, (waiter_one_probe_and_bounded (fun _ => true) 0 100 (by decide)).1⟩

/-- C8 counterexample: the places script exits 0 even when a step
failed (the wait timed out, so the scenario did not succeed), where the
claim requires exit code 1; and a launch failure of the chat script
before any step ran exits 1, where the claim requires 2. -/
theorem exit_code_claim_counterexample :
    resultOf (VerifyFeature.body placesExpectFail) true = Except.error PwError.timeoutError ∧
    exitCode (resultOf (VerifyFeature.verify_places_search placesExpectFail) true) = 0 ∧
    exitCode (resultOf (VerifyChat.run chatLaunchFail) true) = 1 := by
  decide

/-- C8 amended: the places script always exits 0, success or failure,
because it catches every error; the chat script never exits 2, and on a
launch failure before any step ran it exits 1, the interpreter default
for an uncaught exception. -/
theorem exit_code_mapping (p : PlacesEnv) (c : ChatEnv) (fs fs2 : Bool) :
    exitCode (resultOf (VerifyFeature.verify_places_search p) fs) = 0 ∧
    exitCode (resultOf (VerifyChat.run c) fs2) ≠ 2 ∧
    (c.launchOk = false → exitCode (resultOf (VerifyChat.run c) fs2) = 1) := by
  refine ⟨?_, ?_, ?_⟩
  · have h0 : resultOf (VerifyFeature.verify_places_search p) fs = Except.ok () :=
      tryCatchPrint_result _ _ _
    rw [h0]
    rfl
  · cases hr : resultOf (VerifyChat.run c) fs2 <;> simp [exitCode]
  · intro hl
    obtain ⟨a, b, c1, d, e⟩ := c
    subst hl
    cases b <;> cases c1 <;> cases d <;> cases e <;> cases fs2 <;> decide

/-- Witness for C8 amended at a concrete environment: a chat launch
failure exits 1. -/
theorem exit_code_mapping_witness :
    chatLaunchFail.launchOk = false ∧
    exitCode (resultOf (VerifyChat.run chatLaunchFail) true) = 1 :=
  ⟨by decide, (exit_code_mapping placesAllOk chatLaunchFail true true).2.2 (by decide)⟩

/-- C9: when the loaded page has no button whose text contains Recap and
the steps before the query succeeded, the recap script prints the
not-found message and returns early: no click and no screenshot appear
in the trace and the run returns normally. -/
theorem recap_missing_early_return (p : PrintEnv) (fs : Bool)
    (h1 : p.launchOk = true) (h2 : p.newPageOk = true) (h3 : p.gotoOk = true)
    (h4 : p.h3Ok = true) (h5 : p.recapFound = false) :
    Event.print "Recap button not found" ∈ traceOf (VerifyPrint.run p) fs ∧
    hasClick (traceOf (VerifyPrint.run p) fs) = false ∧
    hasScreenshot (traceOf (VerifyPrint.run p) fs) = false ∧
    resultOf (VerifyPrint.run p) fs = Except.ok () := by
  obtain ⟨a, b, c1, d, e, f, g, i⟩ := p
  subst h1; subst h2; subst h3; subst h4; subst h5
  cases f <;> cases g <;> cases i <;> cases fs <;> decide

/-- Witness for C9 at a concrete environment with no Recap button. -/
theorem recap_missing_early_return_witness :
    Event.print "Recap button not found" ∈ traceOf (VerifyPrint.run printNoRecap) true ∧
    hasClick (traceOf (VerifyPrint.run printNoRecap) true) = false :=
  ⟨(recap_missing_early_return printNoRecap true (by decide) (by decide) (by decide)
      (by decide) (by decide)).1,
   (recap_missing_early_return printNoRecap true (by decide) (by decide) (by decide)
      (by decide) (by decide)).2.1⟩

/-- C10: the screenshot of the places script cannot fail for want of its
output directory: on every environment and every initial filesystem
state the body never raises the missing-directory error, because the
directory is created when absent just before the capture; and when all
prior steps succeed, the directory exists from that point on. -/
theorem output_dir_ensured (p : PlacesEnv) (fs : Bool) :
    resultOf (VerifyFeature.body p) fs ≠ Except.error PwError.missingDir ∧
    (p.gotoOk = true → p.fillOk = true → p.pressOk = true → p.expectOk = true →
      fsAfter (VerifyFeature.body p) fs = true) := by
  obtain ⟨a, b, c1, d, e⟩ := p
  cases a <;> cases b <;> cases c1 <;> cases d <;> cases e <;> cases fs <;> decide

/-- Witness for C10 at a concrete run starting without the directory:
it is created and the capture does not fail for lack of it. -/
theorem output_dir_ensured_witness :
    resultOf (VerifyFeature.body placesAllOk) false ≠ Except.error PwError.missingDir ∧
    fsAfter (VerifyFeature.body placesAllOk) false = true :=
  ⟨(output_dir_ensured placesAllOk false).1,
   (output_dir_ensured placesAllOk false).2 (by decide) (by decide) (by decide) (by decide)⟩
